import Mathlib

/-!
Shallow embedding of the pygmyapp/cdn derivative pipeline.

The definitions below translate the read route, the delete route, the cache
invalidation helper and the IPC avatar check from src/routes.ts and
src/ipc.ts (src/unnamed/part_001 and src/unnamed/part_002). Byte buffers
are modelled as strings, the image codec as an opaque function argument,
and the MinIO cache bucket as an association list from object name to
stored entry. The ECMAScript Number coercion is modelled on the fragment
the routes exercise: integer literals with an optional sign; every other
string (WxH descriptors, alphabetic text, hex or fractional literals) is
treated as NaN, and the empty string coerces to zero, as in JavaScript.
-/

/-- Accumulates the decimal value of a digit list; any non-digit character
makes the whole parse fail, mirroring a NaN result. -/
def digitsValAux (acc : Nat) : List Char → Option Nat
  | [] => some acc
  | c :: rest =>
    if c.isDigit then digitsValAux (acc * 10 + (c.toNat - 48)) rest else none

/-- Value of a nonempty all-digit character list, none otherwise. -/
def digitsValNE : List Char → Option Nat
  | [] => none
  | cs => digitsValAux 0 cs

/-- Models Number(str) on the strings the routes care about: empty string
coerces to 0, an optional sign followed by digits is an integer, anything
else is NaN (none). -/
def jsNumOfChars : List Char → Option Int
  | [] => some 0
  | '-' :: rest => (digitsValNE rest).map (fun n => -(n : Int))
  | '+' :: rest => (digitsValNE rest).map (fun n => (n : Int))
  | cs => (digitsValNE cs).map (fun n => (n : Int))

/-- Models Number(query) where the query is possibly undefined; the
undefined case is NaN. -/
def jsNumber : Option String → Option Int
  | none => none
  | some s => jsNumOfChars s.data

/-- Width and height pair produced by parseSize. -/
structure Dims where
  width : Int
  height : Int
deriving DecidableEq

/-- Models String.prototype.split with a single-character separator. -/
def splitChar (c : Char) : List Char → List (List Char)
  | [] => [[]]
  | a :: rest =>
    match splitChar c rest with
    | [] => [[]]
    | g :: gs => if a = c then [] :: g :: gs else (a :: g) :: gs

/-- Models String.prototype.includes for one character. -/
def containsChar (c : Char) (l : List Char) : Bool := l.any (fun a => a = c)

/-- Truthiness of a JavaScript number held as Option Int (none is NaN):
NaN and 0 are falsy. -/
def truthyNum : Option Int → Bool
  | none => false
  | some n => n != 0

/-- Truthiness of a possibly undefined string: undefined and the empty
string are falsy. -/
def truthyStr : Option String → Bool
  | none => false
  | some s => s != ""

/-- Translation of parseSize from src/routes.ts lines 72-90. A falsy input
gives null; a string containing x is split and each component coerced with
Number, any falsy (missing, NaN or zero) component giving null; otherwise
the whole string is coerced with Number and only a NaN result gives null,
so a plain zero passes through as a 0x0 dimension pair. -/
def parseSize : Option String → Option Dims
  | none => none
  | some s =>
    if s = "" then none
    else if containsChar 'x' s.data then
      let ns := (splitChar 'x' s.data).map jsNumOfChars
      match ns.get? 0, ns.get? 1 with
      | some (some w), some (some h) =>
        if w = 0 ∨ h = 0 then none else some ⟨w, h⟩
      | _, _ => none
    else
      match jsNumOfChars s.data with
      | none => none
      | some n => some ⟨n, n⟩

/-- Translation of isValidFormat from src/routes.ts lines 64-65. -/
def validFormatB (s : String) : Bool :=
  s == "png" || s == "jpeg" || s == "webp" || s == "avif"

/-- Models mime.getExtension on the image content types this service
stores; unknown types give null. -/
def extOf (ct : String) : Option String :=
  if ct == "image/png" then some "png"
  else if ct == "image/jpeg" then some "jpeg"
  else if ct == "image/webp" then some "webp"
  else if ct == "image/avif" then some "avif"
  else if ct == "image/gif" then some "gif"
  else none

/-- The format component of the cache key, translating the template
expression type or getExtension of the content type: a truthy requested
type wins, otherwise the origin extension, a null extension printing as
the text null exactly as a template literal would. -/
def fmtComponent (typeQ extO : Option String) : String :=
  if truthyStr typeQ then typeQ.getD ""
  else
    match extO with
    | some e => e
    | none => "null"

/-- Translation of the cacheKey template from src/routes.ts line 213: the
id, a double underscore, the format component, and an underscore plus the
numeric size only when Number(size) is truthy. -/
def cacheKey (id : String) (typeQ extO : Option String) (sizeN : Option Int) : String :=
  id ++ "__" ++ fmtComponent typeQ extO ++
    (if truthyNum sizeN then "_" ++ toString (sizeN.getD 0) else "")

/-- A stored derivative object in the cache bucket: bytes, content type
metadata, and the stamped x-original-etag metadata (absent when the object
was stored without it). -/
structure CacheEntry where
  bytes : String
  contentType : String
  origEtag : Option String
deriving DecidableEq

/-- The cache bucket as an association list from object name to entry. -/
abbrev Cache := List (String × CacheEntry)

/-- The listObjectsV2 prefix used by invalidateCacheFor: the id followed
by the double-underscore delimiter. -/
def idDelimited (id : String) : String := id ++ "__"

/-- Whether a stored object name matches the invalidation listing, i.e.
carries the delimited id as a prefix. -/
def keyMatches (id : String) (k : String) : Bool :=
  (idDelimited id).data.isPrefixOf k.data

/-- Pure effect of a successful invalidateCacheFor run (src/routes.ts
lines 96-114): every object whose name starts with the delimited id is
removed from the cache bucket. -/
def invalidateCacheFor (id : String) (cache : Cache) : Cache :=
  cache.filter (fun kv => !(keyMatches id kv.1))

/-- invalidateCacheFor with the removeObjects backend call allowed to
fail: the matching names are collected from the listing; when none match,
removeObjects is never invoked and the promise resolves with the cache
untouched; otherwise a failing removal rejects and a successful one
removes exactly the matches. -/
def invalidateCacheForE (removeFails : Bool) (id : String) (cache : Cache) :
    Except Unit Cache :=
  let objects := cache.filter (fun kv => keyMatches id kv.1)
  if objects.isEmpty then .ok cache
  else if removeFails then .error ()
  else .ok (invalidateCacheFor id cache)

/-- The distinct error constants of src/constants.ts used by these
routes. -/
inductive ErrKey
  | serverError
  | missingBucket
  | missingID
  | invalidImageType
  | fileNotFound
  | fileNotFoundNoFallback
  | forbidden
deriving DecidableEq

/-- The error message strings from src/constants.ts. -/
def errMessage : ErrKey → String
  | .serverError => "Server Error"
  | .missingBucket => "Missing bucket"
  | .missingID => "Missing ID"
  | .invalidImageType => "Invalid image type/extension"
  | .fileNotFound => "File not found"
  | .fileNotFoundNoFallback => "File not found (no fallback available)"
  | .forbidden => "Forbidden (insufficient privlidges to delete object)"

/-- Outcome of the GET route, tagged by the code path that produced the
body: a non-image served directly, a cache hit, the sharp pipeline output,
the untouched origin buffer when useTransform stayed false, the fallback
avatar asset, or a JSON error with its HTTP status. -/
inductive Response
  | nonImage (body ct : String)
  | cachedHit (body ct : String)
  | piped (body ct : String)
  | passthrough (body : String)
  | fallback (fmt : String)
  | err (e : ErrKey) (status : Nat)
deriving DecidableEq

/-- An origin object as seen by the route: content type and owner from its
metadata, its etag, its bytes, and the width and height sharp reads from
those bytes. -/
structure OriginObj where
  contentType : String
  etag : String
  userid : String
  bytes : String
  width : Int
  height : Int
deriving DecidableEq

/-- A GET request: path parameters and the raw type and size queries. -/
structure Req where
  bucket : String
  id : String
  typeQ : Option String
  sizeQ : Option String
deriving DecidableEq

/-- Models the startsWith image/ test on the stored content type. -/
def startsWithImage (ct : String) : Bool :=
  "image/".data.isPrefixOf ct.data

/-- Models the fallback content type expression stat content type or
application/octet-stream. -/
def ctOrOctet (ct : String) : String :=
  if ct != "" then ct else "application/octet-stream"

/-- The image codec: origin bytes, an optional inside-fit never-enlarging
resize, an optional target format, producing the re-encoded bytes. Kept
opaque, as the spec treats sharp. -/
abbrev Engine := String → Option Dims → Option String → String

/-- Translation of the useTransform computation, src/routes.ts lines
246-264: it starts true; when dimensions are present and both requested
components are at least the origin ones it becomes the comparison of the
raw type query against the origin extension (undefined differs from any
string); the second conditional re-checks the same comparison and can
never change the value. -/
def useTransformCalc (dims : Option Dims) (typeQ extO : Option String)
    (w h : Int) : Bool :=
  let u1 :=
    match dims with
    | some d => if d.width ≥ w ∧ d.height ≥ h then typeQ != extO else true
    | none => true
  if !u1 && (typeQ != extO) then typeQ != extO else u1

/-- Models the FormatEnum coercion at src/routes.ts line 289: an invalid
requested format silently becomes jpeg. -/
def sharpFormat (t : String) : String :=
  if validFormatB t then t else "jpeg"

/-- putObject into the cache bucket: overwrite semantics on the object
name. -/
def cachePut (key : String) (e : CacheEntry) (cache : Cache) : Cache :=
  (key, e) :: cache.filter (fun kv => kv.1 != key)

/-- Translation of src/routes.ts lines 246-329 after the cache check: the
useTransform decision, the optional resize (applied when the size query is
present and parsed) and re-encode (applied when a type query is present
and differs from the origin extension), the Content-Type header choice,
and the putObject write-back stamped with the origin etag, performed only
when a resize or re-encode was actually applied. -/
def transformPhase (engine : Engine) (o : OriginObj) (r : Req)
    (extO : Option String) (dims : Option Dims) (key : String)
    (cache : Cache) : Response × Cache :=
  let u := useTransformCalc dims r.typeQ extO o.width o.height
  if u then
    let resizeApplied := r.sizeQ.isSome && dims.isSome
    let formatApplied := r.typeQ.isSome && (r.typeQ != extO)
    let engineFormat : Option String :=
      if formatApplied then some (sharpFormat (r.typeQ.getD "")) else none
    let body := engine o.bytes (if resizeApplied then dims else none) engineFormat
    let ctHeader :=
      if formatApplied then "image/" ++ r.typeQ.getD ""
      else ctOrOctet o.contentType
    let isT := resizeApplied || formatApplied
    let cacheCT :=
      if truthyStr r.typeQ then "image/" ++ r.typeQ.getD ""
      else ctOrOctet o.contentType
    let cache2 :=
      if isT then cachePut key ⟨body, cacheCT, some o.etag⟩ cache else cache
    (.piped body ctHeader, cache2)
  else
    (.passthrough o.bytes, cache)

/-- Translation of the GET route src/routes.ts lines 183-363. Parameters:
whether each default avatar file exists on disk, the codec, whether an
invalidation attempt would fail at the backend, the origin object (none
when statObject raises NoSuchKey), the cache bucket and the request.
Returns the response together with the cache bucket afterwards. The inner
try block serves a cached entry only when its stamped etag equals the
origin etag; on a mismatch it awaits invalidateCacheFor, whose rejection
is swallowed by the same catch that handles cache misses, after which
regeneration proceeds either way. -/
def handleGet (fbExists : String → Bool) (engine : Engine) (invFails : Bool)
    (origin : Option OriginObj) (cache : Cache) (r : Req) : Response × Cache :=
  if r.bucket = "" then (.err .missingBucket 400, cache)
  else if r.id = "" then (.err .missingID 400, cache)
  else if truthyStr r.typeQ && !validFormatB (r.typeQ.getD "") then
    (.err .invalidImageType 400, cache)
  else
    match origin with
    | none =>
      if r.bucket = "avatars" then
        let fmt := if truthyStr r.typeQ then r.typeQ.getD "" else "webp"
        if fbExists fmt then (.fallback fmt, cache)
        else (.err .fileNotFoundNoFallback 404, cache)
      else (.err .fileNotFound 404, cache)
    | some o =>
      if !startsWithImage o.contentType then (.nonImage o.bytes o.contentType, cache)
      else
        let extO := extOf o.contentType
        let sizeN := jsNumber r.sizeQ
        let dims := parseSize r.sizeQ
        let key := cacheKey r.id r.typeQ extO sizeN
        match List.lookup key cache with
        | some e =>
          if e.origEtag = some o.etag then (.cachedHit e.bytes e.contentType, cache)
          else
            let c1 :=
              match invalidateCacheForE invFails r.id cache with
              | .ok c => c
              | .error _ => cache
            transformPhase engine o r extO dims key c1
        | none => transformPhase engine o r extO dims key cache

/-- Outcome of the DELETE route. -/
inductive DelResp
  | noContent
  | err (e : ErrKey) (status : Nat)
deriving DecidableEq

/-- Translation of the DELETE route src/routes.ts lines 392-428: stat the
origin (none raises NoSuchKey, a 404), refuse with Forbidden when the
authenticated user differs from the recorded uploader, otherwise remove
the origin and, when its content type is an image type, run
invalidateCacheFor on the id. Returns the response, the origin afterwards
and the cache afterwards. -/
def handleDelete (origin : Option OriginObj) (cache : Cache)
    (userId bucket id : String) : DelResp × Option OriginObj × Cache :=
  if bucket = "" then (.err .missingBucket 400, origin, cache)
  else if id = "" then (.err .missingID 400, origin, cache)
  else
    match origin with
    | none => (.err .fileNotFound 404, none, cache)
    | some o =>
      if userId ≠ o.userid then (.err .forbidden 400, some o, cache)
      else
        let cache2 :=
          if startsWithImage o.contentType then invalidateCacheFor id cache
          else cache
        (.noContent, none, cache2)

/-- statObject result for the avatars bucket as the IPC handler sees it:
the userid metadata entry when present. -/
structure AvatarStat where
  userid : Option String
deriving DecidableEq

/-- Translation of the CHECK_IF_AVATAR_EXISTS handler, src/ipc.ts lines
29-56: a storage error, a missing userid metadata entry, or a mismatching
one all fall into the catch and reply exists false; only a stat whose
userid equals the requested user id replies exists true. -/
def checkIfAvatarExists (statResult : Except Unit AvatarStat)
    (userId : String) : Bool :=
  match statResult with
  | .error _ => false
  | .ok s =>
    match s.userid with
    | some u => u == userId
    | none => false

/-- A concrete codec used as a witness: tags the bytes it re-encodes. -/
def engW : Engine := fun b _ _ => "enc:" ++ b

/-- A concrete 1000 by 1000 jpeg origin used by the decision-table
claims. -/
def o0 : OriginObj := ⟨"image/jpeg", "t1", "u1", "RAW", 1000, 1000⟩

/-- A deployment with no default avatar files. -/
def fbNone : String → Bool := fun _ => false

/-- A cache bucket holding two stale derivatives of origin A, stamped with
a superseded etag. -/
def cacheStale : Cache :=
  [("A__jpeg_500", ⟨"OLD", "image/jpeg", some "t0"⟩),
   ("A__png", ⟨"OLD2", "image/png", some "t0"⟩)]

/-- A cache bucket holding one derivative of origin A stamped with the
current etag of o0. -/
def cacheHit : Cache := [("A__jpeg_500", ⟨"OLD", "image/jpeg", some "t1"⟩)]

/-- The transform phase never produces a cache-hit response; its outcome
is tagged piped or passthrough. -/
theorem transformPhase_fst_not_cachedHit (engine : Engine) (o : OriginObj) (r : Req)
    (extO : Option String) (dims : Option Dims) (key : String) (cache : Cache)
    (b ct : String) :
    (transformPhase engine o r extO dims key cache).1 ≠ Response.cachedHit b ct := by
  unfold transformPhase
  by_cases h : useTransformCalc dims r.typeQ extO o.width o.height <;> simp [h]

/-- C1: the claim states that a transform is required iff the requested
size is not satisfied by the origin or a differing format is requested,
and in particular that a 1000 by 1000 origin with requested size 2000 and
no type needs no transform. The code disagrees: because an absent type
query compares unequal to the origin extension, useTransform stays true,
the resize node is attached, and a derivative is generated and written to
the cache for exactly that request. -/
theorem C1_size_satisfied_no_type_still_transforms :
    useTransformCalc (parseSize (some "2000")) none (some "jpeg") 1000 1000 = true ∧
    handleGet fbNone engW false (some o0) [] ⟨"avatars", "A", none, some "2000"⟩ =
      (.piped "enc:RAW" "image/jpeg",
       [("A__jpeg_2000", ⟨"enc:RAW", "image/jpeg", some "t1"⟩)]) := by
  constructor
  · decide
  · decide

/-- C2: on the image read path, a cached derivative is served exactly when
the looked-up cache entry exists and its stored x-original-etag equals the
current origin etag; any response tagged as a cache hit can only have come
from such an entry, so stale cached bytes are never returned. -/
theorem C2_cached_served_iff_etag_match (fb : String → Bool) (engine : Engine)
    (invFails : Bool) (o : OriginObj) (cache : Cache) (r : Req)
    (hb : ¬ r.bucket = "") (hi : ¬ r.id = "")
    (ht : (truthyStr r.typeQ && !validFormatB (r.typeQ.getD "")) = false)
    (him : startsWithImage o.contentType = true) :
    (∀ e, List.lookup (cacheKey r.id r.typeQ (extOf o.contentType) (jsNumber r.sizeQ)) cache = some e →
      ((handleGet fb engine invFails (some o) cache r).1 = Response.cachedHit e.bytes e.contentType ↔
        e.origEtag = some o.etag)) ∧
    (∀ b ct, (handleGet fb engine invFails (some o) cache r).1 = Response.cachedHit b ct →
      ∃ e, List.lookup (cacheKey r.id r.typeQ (extOf o.contentType) (jsNumber r.sizeQ)) cache = some e ∧
        e.origEtag = some o.etag ∧ e.bytes = b ∧ e.contentType = ct) := by
  constructor
  · intro e hlk
    constructor
    · intro hresp
      by_contra he
      rw [show handleGet fb engine invFails (some o) cache r
          = transformPhase engine o r (extOf o.contentType) (parseSize r.sizeQ)
              (cacheKey r.id r.typeQ (extOf o.contentType) (jsNumber r.sizeQ))
              (match invalidateCacheForE invFails r.id cache with
               | .ok c => c
               | .error _ => cache) from by
        simp [handleGet, hb, hi, ht, him, hlk, he]] at hresp
      exact transformPhase_fst_not_cachedHit _ _ _ _ _ _ _ _ _ hresp
    · intro he
      simp [handleGet, hb, hi, ht, him, hlk, he]
  · intro b ct hresp
    rcases hlk : List.lookup (cacheKey r.id r.typeQ (extOf o.contentType) (jsNumber r.sizeQ)) cache with _ | e
    · rw [show handleGet fb engine invFails (some o) cache r
          = transformPhase engine o r (extOf o.contentType) (parseSize r.sizeQ)
              (cacheKey r.id r.typeQ (extOf o.contentType) (jsNumber r.sizeQ)) cache from by
        simp [handleGet, hb, hi, ht, him, hlk]] at hresp
      exact absurd hresp (transformPhase_fst_not_cachedHit _ _ _ _ _ _ _ _ _)
    · by_cases he : e.origEtag = some o.etag
      · refine ⟨e, rfl, he, ?_⟩
        rw [show handleGet fb engine invFails (some o) cache r
            = (Response.cachedHit e.bytes e.contentType, cache) from by
          simp [handleGet, hb, hi, ht, him, hlk, he]] at hresp
        exact ⟨by injection hresp, by injection hresp⟩
      · rw [show handleGet fb engine invFails (some o) cache r
            = transformPhase engine o r (extOf o.contentType) (parseSize r.sizeQ)
                (cacheKey r.id r.typeQ (extOf o.contentType) (jsNumber r.sizeQ))
                (match invalidateCacheForE invFails r.id cache with
                 | .ok c => c
                 | .error _ => cache) from by
          simp [handleGet, hb, hi, ht, him, hlk, he]] at hresp
        exact absurd hresp (transformPhase_fst_not_cachedHit _ _ _ _ _ _ _ _ _)

/-- C2 witness: a concrete request against a cache entry stamped with the
current origin etag is served from the cache. -/
theorem C2_witness :
    (handleGet fbNone engW false (some o0) cacheHit ⟨"avatars", "A", none, some "500"⟩).1 =
      Response.cachedHit "OLD" "image/jpeg" :=
  ((C2_cached_served_iff_etag_match fbNone engW false o0 cacheHit
      ⟨"avatars", "A", none, some "500"⟩ (by decide) (by decide) (by decide) (by decide)).1
    ⟨"OLD", "image/jpeg", some "t1"⟩ (by decide)).mpr rfl

/-- C3 counterexample: the requested sizes 800x600 and absent normalize to
different dimension tuples yet produce the same cache key, because a WxH
descriptor coerces to NaN and the size component is dropped; conversely
512x512 and 512 normalize to the same dimensions yet produce different
keys. Both the injectivity and the determinism over normalized inputs
asserted by the claim fail. -/
theorem C3_counterexample :
    cacheKey "A" none (some "png") (jsNumber (some "800x600")) =
      cacheKey "A" none (some "png") (jsNumber none) ∧
    parseSize (some "800x600") ≠ parseSize none ∧
    parseSize (some "512x512") = parseSize (some "512") ∧
    cacheKey "A" none (some "png") (jsNumber (some "512x512")) ≠
      cacheKey "A" none (some "png") (jsNumber (some "512")) := by decide

/-- C3 amended: key derivation is a pure function of the origin id, the
raw type query, the origin extension and the numeric size coercion, every
key starts with the origin id followed by the double-underscore delimiter,
and distinct origin ids give distinct delimited prefixes; injectivity over
the normalized format and dimensions does not hold. -/
theorem C3_key_deterministic_shape (id : String) (ty ex : Option String)
    (sz : Option Int) (idB : String) :
    (∃ rest, cacheKey id ty ex sz = id ++ "__" ++ rest) ∧
    (id ≠ idB → idDelimited id ≠ idDelimited idB) := by
  constructor
  · refine ⟨fmtComponent ty ex ++ (if truthyNum sz then "_" ++ toString (sz.getD 0) else ""), ?_⟩
    unfold cacheKey
    rw [String.append_assoc]
  · intro hne hcontra
    apply hne
    have hd := congrArg String.data hcontra
    simp only [idDelimited, String.data_append] at hd
    exact String.ext (List.append_cancel_right hd)

/-- C3 witness: concrete instance of the amended key shape facts. -/
theorem C3_witness :
    (∃ rest, cacheKey "A" none (some "png") none = "A" ++ "__" ++ rest) ∧
    idDelimited "A" ≠ idDelimited "B" :=
  ⟨(C3_key_deterministic_shape "A" none (some "png") none "B").1,
   (C3_key_deterministic_shape "A" none (some "png") none "B").2 (by decide)⟩

/-- C4: the size parser maps 512 to the square pair, 800x600 to the
rectangular pair, and treats abc, the empty string and an absent query as
no dimensions, but contrary to the claim a bare 0 is not rejected: only a
NaN result is checked in the bare-number branch, so 0 parses to the 0 by 0
dimension pair instead of no dimensions. -/
theorem C4_parseSize_table :
    parseSize (some "512") = some ⟨512, 512⟩ ∧
    parseSize (some "800x600") = some ⟨800, 600⟩ ∧
    parseSize (some "abc") = none ∧
    parseSize (some "") = none ∧
    parseSize none = none ∧
    parseSize (some "0") = some ⟨0, 0⟩ := by decide

/-- C5: for a request with no query parameters at all the code does not
serve the origin bytes unmodified: useTransform remains true, so the
response body is the codec pipeline applied to the origin buffer with no
resize and no format, for every codec; no cache entry is written. -/
theorem C5_no_query_piped_not_passthrough :
    ∀ engine : Engine,
      handleGet fbNone engine false (some o0) [] ⟨"avatars", "A", none, none⟩ =
        (.piped (engine "RAW" none none) "image/jpeg", []) := by
  intro engine
  rfl

/-- C6: a successful invalidation run removes exactly the cache objects
whose names start with the delimited origin id, and when no stored name
matches, the run resolves with the cache untouched without ever invoking
the removal backend, even a failing one. -/
theorem C6_invalidate_removes_matches_noop (id : String) (cache : Cache) :
    invalidateCacheForE false id cache = .ok (invalidateCacheFor id cache) ∧
    (∀ rf : Bool, (cache.filter (fun kv => keyMatches id kv.1)).isEmpty = true →
      invalidateCacheForE rf id cache = .ok cache) ∧
    (∀ kv, kv ∈ invalidateCacheFor id cache ↔ kv ∈ cache ∧ keyMatches id kv.1 = false) := by
  refine ⟨?_, ?_, ?_⟩
  · unfold invalidateCacheForE
    by_cases h : (cache.filter (fun kv => keyMatches id kv.1)).isEmpty
    · have hnil : cache.filter (fun kv => keyMatches id kv.1) = [] := by
        simpa [List.isEmpty_iff] using h
      have hall : ∀ a ∈ cache, keyMatches id a.1 = false := by
        intro a ha
        simpa using List.filter_eq_nil_iff.mp hnil a ha
      have hself : invalidateCacheFor id cache = cache := by
        unfold invalidateCacheFor
        exact List.filter_eq_self.mpr (fun a ha => by simp [hall a ha])
      simp [h, hself]
    · simp [h]
  · intro rf hemp
    unfold invalidateCacheForE
    simp [hemp]
  · intro kv
    unfold invalidateCacheFor
    simp [List.mem_filter]

/-- C6 witness: invalidating an id with no matching derivatives is a no-op
success even when the removal backend would fail. -/
theorem C6_witness :
    invalidateCacheForE true "A" [("B__png", ⟨"b", "image/png", some "t"⟩)] =
      .ok [("B__png", ⟨"b", "image/png", some "t"⟩)] :=
  (C6_invalidate_removes_matches_noop "A" [("B__png", ⟨"b", "image/png", some "t"⟩)]).2.1
    true (by decide)

/-- C7: when the origin is absent, the avatars bucket serves the
pre-provisioned default asset for the requested format, defaulting to webp
when no truthy format was requested, or the distinct no-fallback error
when that asset does not exist; every other bucket always answers the
plain not-found error, and the two error messages differ. -/
theorem C7_fallback_policy (fb : String → Bool) (engine : Engine) (invFails : Bool)
    (cache : Cache) (r : Req)
    (hb : ¬ r.bucket = "") (hi : ¬ r.id = "")
    (ht : (truthyStr r.typeQ && !validFormatB (r.typeQ.getD "")) = false) :
    (r.bucket = "avatars" →
      (fb (if truthyStr r.typeQ then r.typeQ.getD "" else "webp") = true →
        handleGet fb engine invFails none cache r =
          (Response.fallback (if truthyStr r.typeQ then r.typeQ.getD "" else "webp"), cache)) ∧
      (fb (if truthyStr r.typeQ then r.typeQ.getD "" else "webp") = false →
        handleGet fb engine invFails none cache r =
          (Response.err .fileNotFoundNoFallback 404, cache))) ∧
    (¬ r.bucket = "avatars" →
      handleGet fb engine invFails none cache r = (Response.err .fileNotFound 404, cache)) ∧
    errMessage .fileNotFoundNoFallback ≠ errMessage .fileNotFound := by
  refine ⟨fun hav => ⟨fun hfb => ?_, fun hfb => ?_⟩, fun hav => ?_, by decide⟩
  · simp [handleGet, hb, hi, ht, hav, hfb]
  · simp [handleGet, hb, hi, ht, hav, hfb]
  · simp [handleGet, hb, hi, ht, hav]

/-- C7 witness: a missing avatar with no requested type is answered with
the default webp asset when it exists. -/
theorem C7_witness :
    handleGet (fun f => f == "webp") engW false none [] ⟨"avatars", "A", none, none⟩ =
      (Response.fallback "webp", []) := by
  have h := C7_fallback_policy (fun f => f == "webp") engW false []
    ⟨"avatars", "A", none, none⟩ (by decide) (by decide) (by decide)
  exact (h.1 rfl).1 (by decide)

/-- C8: the claim requires a token-mismatch invalidation to complete, or
fail the read, before any regenerated derivative is written. In the code
the catch around the cache lookup also swallows a rejected
invalidateCacheFor: with a failing removal backend, a stale entry for the
same origin survives, yet the read succeeds, regenerates, and writes the
new derivative back under the looked-up key. -/
theorem C8_failed_invalidation_swallowed :
    handleGet fbNone engW true (some o0) cacheStale ⟨"avatars", "A", none, some "500"⟩ =
      (.piped "enc:RAW" "image/jpeg",
       [("A__jpeg_500", ⟨"enc:RAW", "image/jpeg", some "t1"⟩),
        ("A__png", ⟨"OLD2", "image/png", some "t0"⟩)]) := by decide

/-- C9: a delete request on a missing origin answers not-found; an
ownership mismatch answers the Forbidden error, whose message differs from
the not-found message, and leaves the origin in place; a matching owner
removes the origin and, exactly when its content type is an image type,
runs the cache invalidation for that id. -/
theorem C9_delete_policy (origin : Option OriginObj) (cache : Cache)
    (userId bucket id : String) (hb : ¬ bucket = "") (hi : ¬ id = "") :
    (origin = none →
      handleDelete origin cache userId bucket id = (.err .fileNotFound 404, none, cache)) ∧
    (∀ o, origin = some o →
      (¬ userId = o.userid →
        handleDelete origin cache userId bucket id = (.err .forbidden 400, some o, cache)) ∧
      (userId = o.userid →
        handleDelete origin cache userId bucket id =
          (.noContent, none,
            if startsWithImage o.contentType then invalidateCacheFor id cache else cache))) ∧
    errMessage .forbidden ≠ errMessage .fileNotFound := by
  refine ⟨fun hn => ?_, fun o ho => ⟨fun hne => ?_, fun heq => ?_⟩, by decide⟩
  · simp [handleDelete, hb, hi, hn]
  · simp [handleDelete, hb, hi, ho, hne]
  · simp [handleDelete, hb, hi, ho, heq]

/-- C9 witness: the recorded owner deletes an image origin and its cached
derivatives are invalidated. -/
theorem C9_witness :
    handleDelete (some o0) cacheStale "u1" "avatars" "A" =
      (.noContent, none,
        if startsWithImage o0.contentType then invalidateCacheFor "A" cacheStale
        else cacheStale) :=
  ((C9_delete_policy (some o0) cacheStale "u1" "avatars" "A"
      (by decide) (by decide)).2.1 o0 rfl).2 rfl

/-- C10: the avatar existence check replies true exactly when the stat of
the avatars object succeeded and its userid metadata equals the requested
user id; a storage error replies false instead of raising. -/
theorem C10_check_avatar_exists_iff (res : Except Unit AvatarStat) (userId : String) :
    (checkIfAvatarExists res userId = true ↔
      ∃ s, res = .ok s ∧ s.userid = some userId) ∧
    checkIfAvatarExists (.error ()) userId = false := by
  refine ⟨?_, rfl⟩
  cases res with
  | error e => simp [checkIfAvatarExists]
  | ok s =>
    cases hs : s.userid with
    | none => simp [checkIfAvatarExists, hs]
    | some u =>
      simp only [checkIfAvatarExists, hs, beq_iff_eq]
      constructor
      · rintro rfl
        exact ⟨s, rfl, hs⟩
      · rintro ⟨s1, h1, h2⟩
        simp_all
